import Mathlib

/-!
Verification of the Semantic Memory & Context Assembly Engine of the
LinkedIn Post Generator repository.

Shallow embedding conventions:
* Python floats (similarity scores, thresholds) are modelled as `Rat`; the
  claims under scrutiny are order-theoretic (`>=` vs `>`) and independent of
  the float representation.
* External collaborators (the fastembed embedding model, Qdrant's cosine
  scoring, the Azure OpenAI LLM calls, `json.loads`, float formatting,
  `uuid.uuid4`, `datetime.utcnow`) are oracle fields of an `Env` record.
* Fallible code returns `Except`.  `generate_post` threads the vector-store
  state explicitly and returns the state both on success and on failure, so
  that "no partial write" statements are contentful.
* Machine strings are Lean `String`s; Python `str.lower` / `str.isupper` /
  `str.strip` are modelled with the ASCII case functions of `Char`, which
  agree with Python on all the ASCII data handled here.
-/

namespace LIPG

/-- Python exceptions that the modelled code can raise. -/
inductive PyErr
  | typeError (msg : String)
  | indexError (msg : String)
  | externalFailure (msg : String)
deriving DecidableEq, Repr

/-! ## Data model (vectorstore/store.py payloads) -/

/-- The payload (metadata) stored with each Qdrant point, exactly the dict
built in `VectorStore.add_post` (store.py lines 103-118). -/
structure Payload where
  user_id : String
  topic : String
  post_content : String
  document : String
  tone : String
  audience : String
  length : String
  series_id : Option String
  series_order : Option Nat
  created_at : String
deriving DecidableEq, Repr

/-- A stored Qdrant point: id, embedding vector, payload. -/
structure Point where
  id : String
  vector : List Rat
  payload : Payload
deriving DecidableEq, Repr

/-- The metadata dict surfaced by `search_similar_posts`, `get_user_posts`
and `get_series_posts` (the payload minus the `document` key). -/
structure Meta where
  user_id : String
  topic : String
  post_content : String
  tone : String
  audience : String
  length : String
  series_id : Option String
  series_order : Option Nat
  created_at : String
deriving DecidableEq, Repr

def buildMeta (p : Payload) : Meta :=
  { user_id := p.user_id
    topic := p.topic
    post_content := p.post_content
    tone := p.tone
    audience := p.audience
    length := p.length
    series_id := p.series_id
    series_order := p.series_order
    created_at := p.created_at }

/-- A hit returned by `VectorStore.search_similar_posts` (store.py 163-180). -/
structure SearchResult where
  id : String
  document : String
  metadata : Meta
  similarity_score : Rat
deriving DecidableEq, Repr

/-- A record returned by `VectorStore.get_series_posts` / `get_user_posts`
(no similarity score). -/
structure PostRecord where
  id : String
  document : String
  metadata : Meta
deriving DecidableEq, Repr

/-! ## Request model (schemas/request.py) -/

inductive ToneType
  | professional | casual | storytelling | inspirational | educational | humorous
deriving DecidableEq, Repr

def ToneType.value : ToneType → String
  | .professional => "professional"
  | .casual => "casual"
  | .storytelling => "storytelling"
  | .inspirational => "inspirational"
  | .educational => "educational"
  | .humorous => "humorous"

inductive AudienceType
  | recruiters | engineers | founders | marketers | general | students
deriving DecidableEq, Repr

def AudienceType.value : AudienceType → String
  | .recruiters => "recruiters"
  | .engineers => "engineers"
  | .founders => "founders"
  | .marketers => "marketers"
  | .general => "general"
  | .students => "students"

inductive LengthType
  | short | medium | long
deriving DecidableEq, Repr

def LengthType.value : LengthType → String
  | .short => "short"
  | .medium => "medium"
  | .long => "long"

inductive StyleMode
  | similar | different
deriving DecidableEq, Repr

def StyleMode.value : StyleMode → String
  | .similar => "similar"
  | .different => "different"

/-- The string values of `ToneType` (request.py lines 11-18). -/
def toneValues : List String :=
  ["professional", "casual", "storytelling", "inspirational", "educational", "humorous"]

/-- The string values of `LengthType` (request.py lines 31-35). -/
def lengthValues : List String := ["short", "medium", "long"]

/-- `PostRequest` (schemas/request.py). -/
structure PostRequest where
  user_id : String
  topic : String
  tone : ToneType
  audience : AudienceType
  length : LengthType
  style_mode : StyleMode
  include_emoji : Bool
  include_hashtags : Bool
  num_hashtags : Nat
  is_series : Bool
  series_id : Option String
deriving DecidableEq, Repr

/-- Python truthiness of `request.series_id` (an `Optional[str]`):
`None` and the empty string are falsy. -/
def pyTruthyOptStr : Option String → Bool
  | none => false
  | some s => s != ""

/-! ## Sorting helpers (executable insertion sorts standing for Qdrant's
score-descending ranking and Python's `list.sort`) -/

/-- Insert into a score-descending list of (point, score) pairs. -/
def insertDesc (x : Point × Rat) : List (Point × Rat) → List (Point × Rat)
  | [] => [x]
  | y :: ys => if y.2 ≤ x.2 then x :: y :: ys else y :: insertDesc x ys

/-- Sort (point, score) pairs by descending score. -/
def sortDesc : List (Point × Rat) → List (Point × Rat)
  | [] => []
  | x :: xs => insertDesc x (sortDesc xs)

theorem mem_insertDesc {x a : Point × Rat} {l : List (Point × Rat)}
    (h : a ∈ insertDesc x l) : a = x ∨ a ∈ l := by
  induction l with
  | nil => simpa [insertDesc] using h
  | cons y ys ih =>
    by_cases hc : y.2 ≤ x.2
    · simpa [insertDesc, hc] using h
    · simp only [insertDesc, hc, if_false, List.mem_cons] at h
      rcases h with h | h
      · exact Or.inr (by simp [h])
      · rcases ih h with h' | h'
        · exact Or.inl h'
        · exact Or.inr (List.mem_cons_of_mem _ h')

theorem mem_sortDesc {a : Point × Rat} {l : List (Point × Rat)}
    (h : a ∈ sortDesc l) : a ∈ l := by
  induction l with
  | nil => simp [sortDesc] at h
  | cons x xs ih =>
    rcases mem_insertDesc (x := x) (l := sortDesc xs) (by simpa [sortDesc] using h) with h' | h'
    · simp [h']
    · exact List.mem_cons_of_mem _ (ih h')

theorem mem_of_mem_take {α : Type} {a : α} :
    ∀ (n : Nat) (l : List α), a ∈ l.take n → a ∈ l := by
  intro n
  induction n with
  | zero => intro l h; simp at h
  | succ m ih =>
    intro l h
    cases l with
    | nil => simp at h
    | cons x xs =>
      simp only [List.take, List.mem_cons] at h
      rcases h with h | h
      · simp [h]
      · exact List.mem_cons_of_mem _ (ih xs h)

/-! ## Prompt inputs and fact bundles (chains/linkedin_chain.py) -/

/-- The structured fact bundle `extract_facts` is documented to return
(linkedin_chain.py lines 209-210, 225-231). -/
structure FactBundle where
  key_claims : List String
  personal_stories : List String
  lessons : List String
  questions : List String
deriving DecidableEq, Repr

/-- The empty bundle substituted when `json.loads` fails
(linkedin_chain.py lines 224-231). -/
def emptyFactBundle : FactBundle :=
  { key_claims := [], personal_stories := [], lessons := [], questions := [] }

/-- A writing-example dict built by `_build_similar_context`
(generator.py lines 220-225). -/
structure WritingExample where
  topic : String
  content : String
  tone : String
  similarity : Rat
deriving DecidableEq, Repr

/-- The context dict returned by `_build_similar_context`. -/
structure SimilarContext where
  writing_examples : List WritingExample
  tone_patterns : List String
deriving DecidableEq, Repr

/-- A topics-to-avoid entry built by `_build_different_context`
(generator.py lines 244-247). -/
structure AvoidTopic where
  topic : String
  similarity : Rat
deriving DecidableEq, Repr

/-- A patterns-to-avoid entry built by `_build_different_context`
(generator.py lines 248-252). -/
structure AvoidPattern where
  tone : String
  length : String
  audience : String
deriving DecidableEq, Repr

/-- The context dict returned by `_build_different_context`. -/
structure DifferentContext where
  topics_to_avoid : List AvoidTopic
  patterns_to_avoid : List AvoidPattern
deriving DecidableEq, Repr

/-- The dict passed to `chain.ainvoke` by `generate_similar_post`
(linkedin_chain.py lines 134-146), list arguments already formatted. -/
structure SimilarPromptInput where
  topic : String
  tone : String
  audience : String
  length : String
  include_emoji : Bool
  include_hashtags : Bool
  num_hashtags : Nat
  writing_examples : String
  tone_patterns : String
  emoji_instruction : String
  hashtag_instruction : String
deriving DecidableEq, Repr

/-- The dict passed to `chain.ainvoke` by `generate_different_post`
(linkedin_chain.py lines 185-197). -/
structure DifferentPromptInput where
  topic : String
  tone : String
  audience : String
  length : String
  include_emoji : Bool
  include_hashtags : Bool
  num_hashtags : Nat
  topics_to_avoid : String
  patterns_to_avoid : String
  emoji_instruction : String
  hashtag_instruction : String
deriving DecidableEq, Repr

/-- The dict passed to `chain.ainvoke` by `generate_series_post`
(linkedin_chain.py lines 268-278).  The `series_facts` argument is carried
as the raw bundle: the Python formatting step `_format_series_facts` sits on
a branch that is unreachable (see `extract_facts_apply` below), so nothing
downstream ever observes it. -/
structure SeriesPromptInput where
  topic : String
  tone : String
  audience : String
  length : String
  series_facts_bundle : FactBundle
  post_summaries : String
  series_order : Nat
  emoji_instruction : String
  hashtag_instruction : String
deriving DecidableEq, Repr

/-- A Python value passed positionally to `LinkedInChain.extract_facts`. -/
inductive PyVal
  | str (s : String)
  | postList (l : List PostRecord)
deriving DecidableEq, Repr

/-! ## The environment of external collaborators -/

/-- Oracles for everything outside the repository: the embedding model,
Qdrant's cosine scoring, the LLM chain invocations, `json.loads` on the
fact-extraction output, float percent formatting, uuid4 draws, the clock,
and the (env-file configurable) settings consumed by the generator service
(config/settings.py). -/
structure Env where
  embed : String → Except PyErr (List Rat)
  cosine : List Rat → List Rat → Rat
  llm_similar : SimilarPromptInput → Except PyErr String
  llm_different : DifferentPromptInput → Except PyErr String
  llm_series : SeriesPromptInput → Except PyErr String
  fact_llm : PyVal → PyVal → Except PyErr String
  json_loads_facts : String → Option FactBundle
  format_percent : Rat → String
  uuid_series : String
  uuid_post : String
  utcnow : String
  similarity_threshold : Rat
  max_similar_posts_to_retrieve : Nat
  min_post_length : Nat
  max_post_length : Nat
  model_used : String

/-! ## VectorStore operations (vectorstore/store.py) -/

/-- `VectorStore.add_post` (store.py lines 67-125): embed
`"Topic: {topic}\n\nPost: {post_content}"`, build the point, upsert.
Returns the updated store and the generated post id; fails (store
unchanged) when the embedding call fails. -/
def add_post (env : Env) (store : List Point) (user_id topic post_content tone audience
    long : String) (series_id : Option String) (series_order : Option Nat) :
    Except PyErr (List Point × String) :=
  match env.embed ("Topic: " ++ topic ++ "\n\nPost: " ++ post_content) with
  | .error e => .error e
  | .ok vec =>
    .ok (store ++
      [{ id := env.uuid_post
         vector := vec
         payload :=
           { user_id := user_id
             topic := topic
             post_content := post_content
             document := "Topic: " ++ topic ++ "\n\nPost: " ++ post_content
             tone := tone
             audience := audience
             length := long
             series_id := series_id
             series_order := series_order
             created_at := env.utcnow } }], env.uuid_post)

/-- Qdrant `query_points` with a `must`-filter (store.py lines 149-161):
filter the collection by the predicate BEFORE ranking, score each remaining
point against the query vector, rank by descending score, keep `limit`. -/
def query_points (store : List Point) (cosine : List Rat → List Rat → Rat)
    (qvec : List Rat) (flt : Point → Bool) (limit : Nat) : List (Point × Rat) :=
  (sortDesc ((store.filter flt).map (fun p => (p, cosine qvec p.vector)))).take limit

/-- `VectorStore.search_similar_posts` (store.py lines 127-182): embed the
query, `query_points` filtered on `user_id`, surface each hit as a dict. -/
def search_similar_posts (env : Env) (store : List Point) (user_id query : String)
    (n_results : Nat) : Except PyErr (List SearchResult) :=
  match env.embed query with
  | .error e => .error e
  | .ok qvec =>
    let hits := query_points store env.cosine qvec
      (fun p => p.payload.user_id == user_id) n_results
    .ok (hits.map (fun h =>
      { id := h.1.id
        document := h.1.payload.document
        metadata := buildMeta h.1.payload
        similarity_score := h.2 }))

/-- Ascending insertion by `metadata.series_order` defaulting to 0,
standing for `posts.sort(key=...)` in store.py line 311.  (Python's sort is
stable; no claim here depends on the order of equal keys, which cannot
occur for service-written series posts anyway.) -/
def insertByOrder (x : PostRecord) : List PostRecord → List PostRecord
  | [] => [x]
  | y :: ys =>
    if x.metadata.series_order.getD 0 < y.metadata.series_order.getD 0 then
      x :: y :: ys
    else
      y :: insertByOrder x ys

def sortByOrder : List PostRecord → List PostRecord
  | [] => []
  | x :: xs => insertByOrder x (sortByOrder xs)

/-- `VectorStore.get_series_posts` (store.py lines 261-312): scroll with a
`must`-filter on both `user_id` and `series_id`, limit 100, then sort by
`series_order`. -/
def get_series_posts (store : List Point) (user_id series_id : String) :
    List PostRecord :=
  let results := ((store.filter (fun p =>
    p.payload.user_id == user_id && p.payload.series_id == some series_id)).take 100)
  sortByOrder (results.map (fun p =>
    { id := p.id, document := p.payload.document, metadata := buildMeta p.payload }))

/-! ## LinkedInChain helpers (chains/linkedin_chain.py) -/

/-- One formatted example of `_format_writing_examples`
(linkedin_chain.py lines 55-58), with 1-based index `i`. -/
def formatExampleLine (i : Nat) (ex : WritingExample) : String :=
  "### Example " ++ toString i ++ " (Topic: " ++ ex.topic ++ ")\n" ++ ex.content ++ "\n"

/-- `LinkedInChain._format_writing_examples` (linkedin_chain.py lines 48-59). -/
def format_writing_examples (examples : List WritingExample) : String :=
  match examples with
  | [] => "No past examples available. Create fresh content."
  | _ =>
    String.intercalate "\n"
      (examples.enum.map (fun p => formatExampleLine (p.1 + 1) p.2))

/-- `LinkedInChain._format_topics_to_avoid` (linkedin_chain.py lines 61-69).
`{t.get('similarity', 0):.0%}` is Python float formatting, delegated to the
`format_percent` oracle. -/
def format_topics_to_avoid (env : Env) (topics : List AvoidTopic) : String :=
  match topics with
  | [] => "No previous topics to avoid."
  | _ =>
    String.intercalate "\n"
      (topics.map (fun t =>
        "- " ++ t.topic ++ " (similarity: " ++ env.format_percent t.similarity ++ ")"))

/-- The de-duplication key `f"{p.get('tone')}-{p.get('length')}"` of
`_format_patterns_to_avoid` (linkedin_chain.py line 79). -/
def patternKey (p : AvoidPattern) : String := p.tone ++ "-" ++ p.length

/-- One formatted line of `_format_patterns_to_avoid`
(linkedin_chain.py line 83). -/
def patternLine (p : AvoidPattern) : String :=
  "- Tone: " ++ p.tone ++ ", Length: " ++ p.length

/-- The accumulation loop of `_format_patterns_to_avoid`
(linkedin_chain.py lines 76-84): `seen` is the set of keys already emitted. -/
def formatPatternsAux : List AvoidPattern → List String → List String
  | [], _ => []
  | p :: ps, seen =>
    if patternKey p ∈ seen then
      formatPatternsAux ps seen
    else
      patternLine p :: formatPatternsAux ps (patternKey p :: seen)

/-- `LinkedInChain._format_patterns_to_avoid` (linkedin_chain.py lines 71-85). -/
def format_patterns_to_avoid (patterns : List AvoidPattern) : String :=
  match patterns with
  | [] => "No specific patterns to avoid."
  | _ => String.intercalate "\n" (formatPatternsAux patterns [])

/-- `LinkedInChain._get_emoji_instruction` (linkedin_chain.py lines 87-91). -/
def get_emoji_instruction (include_emoji : Bool) : String :=
  if include_emoji then "Use 2-4 relevant emojis strategically placed"
  else "Do NOT use any emojis"

/-- `LinkedInChain._get_hashtag_instruction` (linkedin_chain.py lines 93-97). -/
def get_hashtag_instruction (include_hashtags : Bool) (num_hashtags : Nat) : String :=
  if include_hashtags then
    "Include exactly " ++ toString num_hashtags ++ " relevant hashtags at the end"
  else "Do NOT include any hashtags"

/-- `LinkedInChain.generate_similar_post` (linkedin_chain.py lines 99-148):
format the context lists and invoke the LLM chain. -/
def generate_similar_post (env : Env) (topic tone audience long : String)
    (writing_examples : List WritingExample) (tone_patterns : List String)
    (include_emoji include_hashtags : Bool) (num_hashtags : Nat) :
    Except PyErr String :=
  env.llm_similar
    { topic := topic
      tone := tone
      audience := audience
      length := long
      include_emoji := include_emoji
      include_hashtags := include_hashtags
      num_hashtags := num_hashtags
      writing_examples := format_writing_examples writing_examples
      tone_patterns :=
        match tone_patterns with
        | [] => "None established"
        | _ => String.intercalate ", " tone_patterns
      emoji_instruction := get_emoji_instruction include_emoji
      hashtag_instruction := get_hashtag_instruction include_hashtags num_hashtags }

/-- `LinkedInChain.generate_different_post` (linkedin_chain.py lines 150-199). -/
def generate_different_post (env : Env) (topic tone audience long : String)
    (topics_to_avoid : List AvoidTopic) (patterns_to_avoid : List AvoidPattern)
    (include_emoji include_hashtags : Bool) (num_hashtags : Nat) :
    Except PyErr String :=
  env.llm_different
    { topic := topic
      tone := tone
      audience := audience
      length := long
      include_emoji := include_emoji
      include_hashtags := include_hashtags
      num_hashtags := num_hashtags
      topics_to_avoid := format_topics_to_avoid env topics_to_avoid
      patterns_to_avoid := format_patterns_to_avoid patterns_to_avoid
      emoji_instruction := get_emoji_instruction include_emoji
      hashtag_instruction := get_hashtag_instruction include_hashtags num_hashtags }

/-- `LinkedInChain.generate_series_post` (linkedin_chain.py lines 233-280). -/
def generate_series_post (env : Env) (topic tone audience long : String)
    (series_facts_bundle : FactBundle) (post_summaries : String) (series_order : Nat)
    (include_emoji include_hashtags : Bool) (num_hashtags : Nat) :
    Except PyErr String :=
  env.llm_series
    { topic := topic
      tone := tone
      audience := audience
      length := long
      series_facts_bundle := series_facts_bundle
      post_summaries := post_summaries
      series_order := series_order
      emoji_instruction := get_emoji_instruction include_emoji
      hashtag_instruction := get_hashtag_instruction include_hashtags num_hashtags }

/-- A Python-level positional call to `LinkedInChain.extract_facts`
(linkedin_chain.py lines 201-231).  The def has exactly two required
positional parameters, `post_content` and `topic`; Python raises
`TypeError` before the body runs when the call supplies any other number
of positional arguments (the message modelled is the one for the
one-argument call that actually occurs, generator.py line 49).
With matching arity, the body invokes the fact-extraction chain and
`json.loads` on its output, substituting the empty structure when parsing
fails (`json.JSONDecodeError`). -/
def extract_facts_apply (env : Env) (args : List PyVal) : Except PyErr FactBundle :=
  match args with
  | [post_content, topic] =>
    match env.fact_llm post_content topic with
    | .error e => .error e
    | .ok result =>
      match env.json_loads_facts result with
      | some d => .ok d
      | none => .ok emptyFactBundle
  | _ =>
    .error (.typeError
      "extract_facts() missing 1 required positional argument: \x27topic\x27")

/-! ## PostGeneratorService helpers (services/generator.py) -/

/-- An entry of the `similar_topics` list built by
`_check_topic_from_results` (generator.py lines 182-186). -/
structure TopicEntry where
  topic : String
  similarity_score : Rat
  created_at : String
deriving DecidableEq, Repr

def mkTopicEntry (p : SearchResult) : TopicEntry :=
  { topic := p.metadata.topic
    similarity_score := p.similarity_score
    created_at := p.metadata.created_at }

/-- The accumulation loop of `_check_topic_from_results`
(generator.py lines 179-186). -/
def collectTopics (threshold : Rat) : List SearchResult → List TopicEntry
  | [] => []
  | p :: ps =>
    if threshold ≤ p.similarity_score then
      mkTopicEntry p :: collectTopics threshold ps
    else
      collectTopics threshold ps

/-- `PostGeneratorService._check_topic_from_results`
(generator.py lines 172-188). -/
def check_topic_from_results (threshold : Rat) (similar_posts : List SearchResult) :
    Bool × List TopicEntry :=
  match similar_posts with
  | [] => (false, [])
  | _ =>
    let similar_topics := collectTopics threshold similar_posts
    (similar_topics.length > 0, similar_topics)

/-- Python `int()` truncation toward zero, applied to a rational. -/
def pyTruncInt (q : Rat) : Int :=
  if 0 ≤ q.num then ((q.num.natAbs / q.den : Nat) : Int)
  else -((q.num.natAbs / q.den : Nat) : Int)

/-- `PostGeneratorService._get_topic_message` (generator.py lines 190-208).
`similar_topics[0]` raises `IndexError` on an empty list; at the only call
site `topic_exists = true` guarantees the list is non-empty. -/
def get_topic_message (topic_exists : Bool) (similar_topics : List TopicEntry)
    (style_mode : StyleMode) : Except PyErr String :=
  if !topic_exists then .ok "This is a fresh topic for you!"
  else
    match similar_topics with
    | [] => .error (.indexError "list index out of range")
    | top_topic :: _ =>
      let similarity_percent := toString (pyTruncInt (top_topic.similarity_score * 100))
      match style_mode with
      | .similar =>
        .ok ("You\x27ve posted about \x27" ++ top_topic.topic ++ "\x27 before (" ++
          similarity_percent ++ "% similar). I\x27ll match your established style.")
      | .different =>
        .ok ("You\x27ve posted about \x27" ++ top_topic.topic ++ "\x27 before (" ++
          similarity_percent ++ "% similar). I\x27ll bring a fresh angle.")

def mkWritingExample (p : SearchResult) : WritingExample :=
  { topic := p.metadata.topic
    content := p.metadata.post_content
    tone := p.metadata.tone
    similarity := p.similarity_score }

/-- First-occurrence de-duplication, modelling the iteration order of the
Python `set` of tones in `_build_similar_context` (Python set iteration
order is unspecified; no theorem below depends on this order). -/
def firstOccDedupAux : List String → List String → List String
  | [], _ => []
  | x :: xs, seen =>
    if x ∈ seen then firstOccDedupAux xs seen
    else x :: firstOccDedupAux xs (x :: seen)

def firstOccDedup (l : List String) : List String := firstOccDedupAux l []

/-- `PostGeneratorService._build_similar_context` (generator.py lines 210-231). -/
def build_similar_context (similar_posts : List SearchResult) : SimilarContext :=
  match similar_posts with
  | [] => { writing_examples := [], tone_patterns := [] }
  | _ =>
    { writing_examples := similar_posts.map mkWritingExample
      tone_patterns := firstOccDedup (similar_posts.map (fun p => p.metadata.tone)) }

def mkAvoidTopic (p : SearchResult) : AvoidTopic :=
  { topic := p.metadata.topic, similarity := p.similarity_score }

def mkAvoidPattern (p : SearchResult) : AvoidPattern :=
  { tone := p.metadata.tone, length := p.metadata.length, audience := p.metadata.audience }

/-- The accumulation loop of `_build_different_context`
(generator.py lines 241-252): both lists are appended to under the same
strict-threshold test. -/
def collectAvoid (threshold : Rat) : List SearchResult → List AvoidTopic × List AvoidPattern
  | [] => ([], [])
  | p :: ps =>
    let rest := collectAvoid threshold ps
    if threshold < p.similarity_score then
      (mkAvoidTopic p :: rest.1, mkAvoidPattern p :: rest.2)
    else
      rest

/-- `PostGeneratorService._build_different_context`
(generator.py lines 233-257). -/
def build_different_context (threshold : Rat) (similar_posts : List SearchResult) :
    DifferentContext :=
  match similar_posts with
  | [] => { topics_to_avoid := [], patterns_to_avoid := [] }
  | _ =>
    let c := collectAvoid threshold similar_posts
    { topics_to_avoid := c.1, patterns_to_avoid := c.2 }

/-! ## PostValidator (utils/validators.py)

String predicates below use the ASCII case/whitespace functions of `Char`;
Python's are Unicode-aware, but they agree on every ASCII input and no
theorem below depends on non-ASCII cased characters. -/

/-- Whether `pat` occurs as a substring of `s` (Python `pat in s`),
for non-empty `pat`. -/
def strContains (s pat : String) : Bool := (s.splitOn pat).length > 1

/-- `pat` occurs in `s` starting at the head (on char lists). -/
def lcStartsWith : List Char → List Char → Bool
  | _, [] => true
  | [], _ :: _ => false
  | c :: cs, p :: ps => c == p && lcStartsWith cs ps

/-- The regex `(?i)http[s]?://(?!linkedin\.com)` (validators.py line 22) on
an already-lowercased char list: some occurrence of `http://` or `https://`
is not immediately followed by `linkedin.com`. -/
def httpViolation : List Char → Bool
  | [] => false
  | c :: cs =>
    (lcStartsWith (c :: cs) "https://".data &&
      !lcStartsWith ((c :: cs).drop 8) "linkedin.com".data) ||
    (lcStartsWith (c :: cs) "http://".data &&
      !lcStartsWith ((c :: cs).drop 7) "linkedin.com".data) ||
    httpViolation cs

/-- Python `str.lower()` (ASCII). -/
def pyLower (s : String) : String := s.map Char.toLower

/-- Python `str.split()` with no argument: split on whitespace runs,
discarding empty pieces. -/
def pySplitWs (s : String) : List String :=
  (s.split Char.isWhitespace).filter (fun w => w != "")

/-- Python `str.isupper()` (ASCII approximation): at least one cased
character and no lowercase character. -/
def pyIsUpper (w : String) : Bool :=
  w.data.any (fun c => c.isUpper || c.isLower) && w.data.all (fun c => !c.isLower)

/-- A character matched by the emoji character class of
`validate_linkedin_friendly` (validators.py lines 108-118). -/
def isEmojiChar (c : Char) : Bool :=
  (0x1F600 ≤ c.toNat && c.toNat ≤ 0x1F64F) ||
  (0x1F300 ≤ c.toNat && c.toNat ≤ 0x1F5FF) ||
  (0x1F680 ≤ c.toNat && c.toNat ≤ 0x1F6FF) ||
  (0x1F1E0 ≤ c.toNat && c.toNat ≤ 0x1F1FF) ||
  (0x2702 ≤ c.toNat && c.toNat ≤ 0x27B0) ||
  (0x24C2 ≤ c.toNat && c.toNat ≤ 0x1F251)

/-- Number of matches of `[emoji]+` (`findall` returns maximal runs). -/
def countEmojiRuns : List Char → Bool → Nat
  | [], _ => 0
  | c :: cs, inRun =>
    if isEmojiChar c then (if inRun then 0 else 1) + countEmojiRuns cs true
    else countEmojiRuns cs false

/-- `PostValidator.validate_length` (validators.py lines 27-45), with the
settings limits passed in (settings.py defaults: min 100, max 3000). -/
def validate_length (min_length max_length : Nat) (post : String) : Bool × String :=
  let len := post.length
  if len < min_length then
    (false, "Post too short (" ++ toString len ++ " chars). Minimum is " ++
      toString min_length ++ ".")
  else if len > max_length then
    (false, "Post too long (" ++ toString len ++ " chars). Maximum is " ++
      toString max_length ++ ".")
  else (true, "Length OK (" ++ toString len ++ " chars)")

/-- The CTA indicator list (validators.py lines 74-77). -/
def ctaIndicators : List String :=
  ["?", "comment", "share", "thoughts", "agree", "disagree",
   "let me know", "what do you", "how do you", "have you"]

/-- `PostValidator.validate_structure` (validators.py lines 47-83). -/
def validate_structure (post : String) : Bool × List String :=
  let lines := (post.trim).splitOn "\n"
  let content_lines := lines.filter (fun l => l.trim != "")
  let issues1 :=
    if content_lines.length < 2 then ["Post needs more content (hook + body minimum)"]
    else []
  let issues2 :=
    match content_lines with
    | [] => []
    | first_line :: _ =>
      if first_line.trim.length < 10 then ["Hook (first line) is too short"] else []
  let last_line :=
    match content_lines.getLast? with
    | none => ""
    | some l => pyLower l
  let has_cta := ctaIndicators.any (fun ind => strContains last_line ind)
  let issues3 :=
    if !has_cta then ["Consider adding a call-to-action or question at the end"]
    else []
  let issues := issues1 ++ issues2 ++ issues3
  (issues.length == 0, issues)

/-- `PostValidator.validate_linkedin_friendly` (validators.py lines 85-123). -/
def validate_linkedin_friendly (post : String) : Bool × List String :=
  let low := (pyLower post).data
  let issuesP1 :=
    if httpViolation low then
      ["Contains potentially problematic content: (?i)http[s]?://(?!linkedin\\.com)"]
    else []
  let issuesP2 :=
    if strContains (pyLower post) "buy now" || strContains (pyLower post) "click here" ||
        strContains (pyLower post) "limited time" then
      ["Contains potentially problematic content: (?i)(buy now|click here|limited time)"]
    else []
  let issuesP3 :=
    if strContains (pyLower post) "dm me" || strContains (pyLower post) "message me for" then
      ["Contains potentially problematic content: (?i)(dm me|message me for)"]
    else []
  let caps_words := (pySplitWs post).filter (fun w => pyIsUpper w && w.length > 2)
  let issuesCaps :=
    if caps_words.length > 3 then ["Too many ALL CAPS words - may seem aggressive"]
    else []
  let issuesEmoji :=
    if countEmojiRuns post.data false > 10 then
      ["Too many emojis - may reduce professional appearance"]
    else []
  let issues := issuesP1 ++ issuesP2 ++ issuesP3 ++ issuesCaps ++ issuesEmoji
  (issues.length == 0, issues)

/-- The dict returned by `PostValidator.validate_all`
(validators.py lines 125-155). -/
structure ValidationResult where
  is_valid : Bool
  length_valid : Bool
  length_message : String
  structure_valid : Bool
  structure_issues : List String
  linkedin_valid : Bool
  linkedin_issues : List String
deriving DecidableEq, Repr

/-- `PostValidator.validate_all` (validators.py lines 125-155).  It reports;
it never raises. -/
def validate_all (min_length max_length : Nat) (post : String) : ValidationResult :=
  let lv := validate_length min_length max_length post
  let sv := validate_structure post
  let kv := validate_linkedin_friendly post
  { is_valid := lv.1 && sv.1 && kv.1
    length_valid := lv.1
    length_message := lv.2
    structure_valid := sv.1
    structure_issues := sv.2
    linkedin_valid := kv.1
    linkedin_issues := kv.2 }

/-! ## Response model (schemas/response.py) and the generation pipeline
(services/generator.py `generate_post`) -/

/-- `TopicInfo` (response.py lines 11-15). -/
structure TopicInfo where
  topic : String
  similarity_score : Rat
  created_at : Option String
deriving DecidableEq, Repr

/-- `PostMetadata` (response.py lines 18-27).  `generation_time_ms` is wall
clock and is not modelled. -/
structure PostMetadataResp where
  tone : String
  audience : String
  length : String
  style_mode : String
  model_used : String
  series_id : Option String
  series_order : Option Nat
deriving DecidableEq, Repr

/-- `PostResponse` (response.py lines 30-59). -/
structure PostResponse where
  post : String
  topic_exists : Bool
  similar_topics : List TopicInfo
  message : String
  metadata : PostMetadataResp
deriving DecidableEq, Repr

/-- Python `f"{x}"` rendering of an `Optional[int]` (`None` prints as
`"None"`). -/
def pyStrOptNat : Option Nat → String
  | none => "None"
  | some n => toString n

/-- Python exception propagation inside `generate_post`: run `x`; an
exception aborts the request carrying the store state at raise time,
otherwise continue with `k`. -/
def tryE {α β : Type} (store : List Point) (x : Except PyErr α)
    (k : α → Except (PyErr × List Point) β) : Except (PyErr × List Point) β :=
  match x with
  | .error e => .error (e, store)
  | .ok a => k a

theorem tryE_eq_error {α β : Type} {store : List Point} {x : Except PyErr α}
    {k : α → Except (PyErr × List Point) β} {e : PyErr} {store' : List Point}
    (h : tryE store x k = .error (e, store')) :
    (x = .error e ∧ store' = store) ∨ (∃ a, x = .ok a ∧ k a = .error (e, store')) := by
  cases x with
  | error e2 =>
    simp only [tryE] at h
    injection h with h1
    injection h1 with h2 h3
    exact Or.inl ⟨by rw [h2], h3.symm⟩
  | ok a => exact Or.inr ⟨a, rfl, h⟩

theorem tryE_eq_ok {α β : Type} {store : List Point} {x : Except PyErr α}
    {k : α → Except (PyErr × List Point) β} {b : β}
    (h : tryE store x k = .ok b) : ∃ a, x = .ok a ∧ k a = .ok b := by
  cases x with
  | error e2 => simp [tryE] at h
  | ok a => exact ⟨a, rfl, h⟩

/-- The shared tail of `generate_post` (generator.py lines 131-170):
`validate_all` is invoked and its return value DISCARDED (line 132 binds
nothing and `validate_all` raises nothing), then `add_post` persists the
post, then the response is assembled.  Failure (only the embedding call
inside `add_post` can fail here) leaves the store unchanged. -/
def finishRequest (env : Env) (store : List Point) (req : PostRequest)
    (generated_post : String) (series_id : Option String) (series_order : Option Nat)
    (topic_exists : Bool) (similar_topics : List TopicEntry) (topic_message : String) :
    Except (PyErr × List Point) (PostResponse × List Point) :=
  let _validation := validate_all env.min_post_length env.max_post_length generated_post
  tryE store (add_post env store req.user_id req.topic generated_post req.tone.value
      req.audience.value req.length.value series_id series_order) fun store2_pid =>
    .ok
      ({ post := generated_post
         topic_exists := topic_exists
         similar_topics := similar_topics.map (fun t =>
           { topic := t.topic
             similarity_score := t.similarity_score
             created_at := some t.created_at })
         message := topic_message
         metadata :=
           { tone := req.tone.value
             audience := req.audience.value
             length := req.length.value
             style_mode := req.style_mode.value
             model_used := env.model_used
             series_id := series_id
             series_order := series_order } },
       store2_pid.1)

/-- The continue-existing-series branch (generator.py lines 42-68).
Line 49 calls `self.chain.extract_facts(series_posts)` with a single
positional argument, while `LinkedInChain.extract_facts` requires
`(post_content, topic)` — the call raises `TypeError` before any LLM work,
so everything after the bind is unreachable (kept to mirror the source). -/
def continue_series (env : Env) (store : List Point) (req : PostRequest) (sid : String) :
    Except (PyErr × List Point) (PostResponse × List Point) :=
  let series_posts := get_series_posts store req.user_id sid
  let series_order := series_posts.length + 1
  tryE store (extract_facts_apply env [PyVal.postList series_posts]) fun all_facts =>
    let summaries := series_posts.map (fun p =>
      "Post " ++ pyStrOptNat p.metadata.series_order ++ ": " ++ p.metadata.topic)
    let post_summaries :=
      match summaries with
      | [] => "This is the first post in the series."
      | _ => String.intercalate "\n" summaries
    tryE store (generate_series_post env req.topic req.tone.value req.audience.value
        req.length.value all_facts post_summaries series_order
        req.include_emoji req.include_hashtags req.num_hashtags) fun generated_post =>
      let topic_message := "Continuing series (Post #" ++ toString series_order ++
        "). Built on " ++ toString series_posts.length ++ " previous posts."
      finishRequest env store req generated_post (some sid) (some series_order)
        false [] topic_message

/-- The start-new-series branch (generator.py lines 69-92): mint a series
id, retrieve similar posts, generate in similar mode, `series_order = 1`. -/
def start_new_series (env : Env) (store : List Point) (req : PostRequest) :
    Except (PyErr × List Point) (PostResponse × List Point) :=
  let sid := env.uuid_series
  tryE store (search_similar_posts env store req.user_id req.topic
      env.max_similar_posts_to_retrieve) fun similar_posts =>
    let memory_context := build_similar_context similar_posts
    tryE store (generate_similar_post env req.topic req.tone.value req.audience.value
        req.length.value memory_context.writing_examples memory_context.tone_patterns
        req.include_emoji req.include_hashtags req.num_hashtags) fun generated_post =>
      let topic_message := "Started new series (Post #1). Series ID: " ++ sid
      finishRequest env store req generated_post (some sid) (some 1) false [] topic_message

/-- The standalone branch (generator.py lines 93-129): retrieve, classify
topic novelty, build the message, generate per style mode. -/
def standalone_post (env : Env) (store : List Point) (req : PostRequest) :
    Except (PyErr × List Point) (PostResponse × List Point) :=
  tryE store (search_similar_posts env store req.user_id req.topic
      env.max_similar_posts_to_retrieve) fun similar_posts =>
    let tc := check_topic_from_results env.similarity_threshold similar_posts
    tryE store (get_topic_message tc.1 tc.2 req.style_mode) fun topic_message =>
      match req.style_mode with
      | .similar =>
        let memory_context := build_similar_context similar_posts
        tryE store (generate_similar_post env req.topic req.tone.value req.audience.value
            req.length.value memory_context.writing_examples
            memory_context.tone_patterns
            req.include_emoji req.include_hashtags req.num_hashtags) fun generated_post =>
          finishRequest env store req generated_post none none tc.1 tc.2 topic_message
      | .different =>
        let avoidance_context := build_different_context env.similarity_threshold
          similar_posts
        tryE store (generate_different_post env req.topic req.tone.value req.audience.value
            req.length.value avoidance_context.topics_to_avoid
            avoidance_context.patterns_to_avoid
            req.include_emoji req.include_hashtags req.num_hashtags) fun generated_post =>
          finishRequest env store req generated_post none none tc.1 tc.2 topic_message

/-- `PostGeneratorService.generate_post` (generator.py lines 21-170).
The branch on `request.series_id` follows Python truthiness: `None` and
`""` both start a new series. -/
def generate_post (env : Env) (store : List Point) (req : PostRequest) :
    Except (PyErr × List Point) (PostResponse × List Point) :=
  if req.is_series then
    if pyTruthyOptStr req.series_id then
      continue_series env store req (req.series_id.getD "")
    else start_new_series env store req
  else standalone_post env store req

/-! ## Concrete instances used by witnesses -/

/-- A benign concrete environment: embedding and LLM calls succeed. -/
def env0 : Env :=
  { embed := fun _ => .ok []
    cosine := fun _ _ => 0
    llm_similar := fun _ => .ok "ok"
    llm_different := fun _ => .ok "ok"
    llm_series := fun _ => .ok "ok"
    fact_llm := fun _ _ => .ok "not json"
    json_loads_facts := fun _ => none
    format_percent := fun _ => "0%"
    uuid_series := "series-uuid-1"
    uuid_post := "post-uuid-1"
    utcnow := "2026-01-01T00:00:00"
    similarity_threshold := mkRat 3 4
    max_similar_posts_to_retrieve := 3
    min_post_length := 100
    max_post_length := 3000
    model_used := "gpt-4o-mini" }

def payload1 : Payload :=
  { user_id := "u1"
    topic := "topic A"
    post_content := "content A"
    document := "doc A"
    tone := "professional"
    audience := "general"
    length := "medium"
    series_id := none
    series_order := none
    created_at := "2026-01-01" }

def point1 : Point := { id := "p1", vector := [1], payload := payload1 }

def point2 : Point :=
  { id := "p2", vector := [2]
    payload := { payload1 with user_id := "u2", topic := "topic B" } }

/-- Environment in which user u2's stored content scores higher against any
query than u1's. -/
def envC1 : Env :=
  { env0 with cosine := fun _ v => if v == [2] then mkRat 9 10 else mkRat 1 2 }

def result1 : SearchResult :=
  { id := "p1", document := "doc A", metadata := buildMeta payload1
    similarity_score := mkRat 1 2 }

/-! ## Claim C1 -/

/-- C1: a similarity search scoped to user U1 returns only records whose
`user_id` equals U1 and never a record of a distinct user U2, for every
store, embedding and scoring oracle, query and limit. -/
theorem C1_search_scoped_to_user (env : Env) (store : List Point)
    (u1 u2 query : String) (n : Nat) (hne : u1 ≠ u2)
    (results : List SearchResult)
    (hok : search_similar_posts env store u1 query n = .ok results) :
    ∀ r ∈ results, r.metadata.user_id = u1 ∧ r.metadata.user_id ≠ u2 := by
  intro r hr
  unfold search_similar_posts at hok
  cases hemb : env.embed query with
  | error e => rw [hemb] at hok; cases hok
  | ok qvec =>
    rw [hemb] at hok
    have hres : (query_points store env.cosine qvec
        (fun p => p.payload.user_id == u1) n).map (fun h =>
          ({ id := h.1.id
             document := h.1.payload.document
             metadata := buildMeta h.1.payload
             similarity_score := h.2 } : SearchResult)) = results := by
      injection hok
    rw [← hres] at hr
    rcases List.mem_map.1 hr with ⟨hit, hhit, rfl⟩
    unfold query_points at hhit
    have hsorted := mem_of_mem_take _ _ hhit
    have hmem := mem_sortDesc hsorted
    rcases List.mem_map.1 hmem with ⟨p, hp, rfl⟩
    have hpred : (p.payload.user_id == u1) = true := (List.mem_filter.1 hp).2
    have huid : p.payload.user_id = u1 := by simpa using hpred
    refine ⟨by simpa [buildMeta] using huid, ?_⟩
    simp only [buildMeta]
    rw [huid]
    exact hne

/-- Witness for C1 at a concrete store holding a post of u1 (score 1/2)
and a post of u2 (score 9/10): searching as u1 returns only u1's record. -/
theorem C1_search_scoped_to_user_witness :
    result1.metadata.user_id = "u1" ∧ result1.metadata.user_id ≠ "u2" :=
  C1_search_scoped_to_user envC1 [point1, point2] "u1" "u2" "q" 3
    (by decide) [result1] (by rfl) result1 (by simp)

/-! ## Claim C3 -/

theorem collectTopics_eq (T : Rat) (l : List SearchResult) :
    collectTopics T l =
      (l.filter (fun r => decide (T ≤ r.similarity_score))).map mkTopicEntry := by
  induction l with
  | nil => rfl
  | cons p ps ih =>
    by_cases h : T ≤ p.similarity_score
    · simp [collectTopics, h, List.filter_cons, ih]
    · simp [collectTopics, h, List.filter_cons, ih]

/-- C3: `_check_topic_from_results` returns `(false, [])` on empty input;
otherwise `topic_exists` is true iff some result has score `>= T`
(inclusive), and the matches are exactly the results with score `>= T`,
in retrieval order. -/
theorem C3_topic_classification (T : Rat) (l : List SearchResult) :
    check_topic_from_results T [] = (false, []) ∧
    ((check_topic_from_results T l).1 = true ↔ ∃ r ∈ l, T ≤ r.similarity_score) ∧
    (check_topic_from_results T l).2 =
      (l.filter (fun r => decide (T ≤ r.similarity_score))).map mkTopicEntry := by
  refine ⟨rfl, ?_, ?_⟩
  · cases l with
    | nil => simp [check_topic_from_results]
    | cons p ps =>
      have hform : (check_topic_from_results T (p :: ps)).1 =
          decide (0 < ((p :: ps).filter
            (fun r => decide (T ≤ r.similarity_score))).length) := by
        simp [check_topic_from_results, collectTopics_eq]
      rw [hform, decide_eq_true_eq]
      constructor
      · intro h
        rcases List.exists_mem_of_length_pos h with ⟨r, hr⟩
        rcases List.mem_filter.1 hr with ⟨hrl, hrT⟩
        exact ⟨r, hrl, by simpa using hrT⟩
      · rintro ⟨r, hrl, hrT⟩
        have hrf : r ∈ (p :: ps).filter (fun r => decide (T ≤ r.similarity_score)) :=
          List.mem_filter.2 ⟨hrl, by simpa using hrT⟩
        exact List.length_pos.2 (List.ne_nil_of_mem hrf)
  · cases l with
    | nil => rfl
    | cons p ps => simp [check_topic_from_results, collectTopics_eq]

/-- `result1` rescored to exactly the default threshold 3/4. -/
def result34 : SearchResult :=
  { id := "p1", document := "doc A", metadata := buildMeta payload1
    similarity_score := mkRat 3 4 }

/-- Witness for C3: with threshold 3/4 and one result scoring exactly 3/4
(inclusive boundary), `topic_exists` is true. -/
theorem C3_topic_classification_witness :
    ∃ r ∈ [result34], mkRat 3 4 ≤ r.similarity_score :=
  (C3_topic_classification (mkRat 3 4) [result34]).2.1.1 (by rfl)

/-! ## Claim C4 -/

theorem collectAvoid_fst_eq (T : Rat) (l : List SearchResult) :
    (collectAvoid T l).1 =
      (l.filter (fun r => decide (T < r.similarity_score))).map mkAvoidTopic := by
  induction l with
  | nil => rfl
  | cons p ps ih =>
    by_cases h : T < p.similarity_score
    · simp [collectAvoid, h, List.filter_cons, ih]
    · simp [collectAvoid, h, List.filter_cons, ih]

/-- C4: the topics-to-avoid list of the different-style context builder
consists exactly of the results with score strictly above the threshold
(in order), so it never contains an entry with score `<= T`. -/
theorem C4_avoidance_strictly_above_threshold (T : Rat) (l : List SearchResult) :
    (build_different_context T l).topics_to_avoid =
      (l.filter (fun r => decide (T < r.similarity_score))).map mkAvoidTopic ∧
    ∀ e ∈ (build_different_context T l).topics_to_avoid, T < e.similarity := by
  have heq : (build_different_context T l).topics_to_avoid =
      (l.filter (fun r => decide (T < r.similarity_score))).map mkAvoidTopic := by
    cases l with
    | nil => rfl
    | cons p ps => simpa [build_different_context] using collectAvoid_fst_eq T (p :: ps)
  refine ⟨heq, ?_⟩
  intro e he
  rw [heq] at he
  rcases List.mem_map.1 he with ⟨r, hr, rfl⟩
  have hrT := (List.mem_filter.1 hr).2
  simpa [mkAvoidTopic] using of_decide_eq_true hrT

def result910 : SearchResult :=
  { id := "p1", document := "doc A", metadata := buildMeta payload1
    similarity_score := mkRat 9 10 }

/-- Witness for C4: with threshold 3/4 and a single result scoring 9/10,
the (unique) avoidance entry indeed scores strictly above 3/4. -/
theorem C4_avoidance_strictly_above_threshold_witness :
    mkRat 3 4 < (mkAvoidTopic result910).similarity :=
  (C4_avoidance_strictly_above_threshold (mkRat 3 4) [result910]).2
    (mkAvoidTopic result910) (by
      rw [(C4_avoidance_strictly_above_threshold (mkRat 3 4) [result910]).1]
      simp only [List.mem_map, List.mem_filter]
      exact ⟨result910, ⟨by simp, by rfl⟩, rfl⟩)

/-! ## Claim C6 -/

/-- C6: on an empty retrieval list the style-matching pipeline hands the
prompt assembly the explicit no-examples default rather than an empty
list, and on any input every retrieved result becomes a writing example,
regardless of its score. -/
theorem C6_style_matching_includes_all (l : List SearchResult) :
    format_writing_examples (build_similar_context []).writing_examples =
      "No past examples available. Create fresh content." ∧
    (build_similar_context l).writing_examples = l.map mkWritingExample := by
  constructor
  · rfl
  · cases l with
    | nil => rfl
    | cons p ps => rfl

/-! ## Claims C2, C7, C8 — the extract_facts arity slip -/

/-- A continuation request for user u1 on series s1 (the series already
holds one post at `series_order = 1`). -/
def reqC2 : PostRequest :=
  { user_id := "u1"
    topic := "part two"
    tone := .professional
    audience := .general
    length := .medium
    style_mode := .similar
    include_emoji := true
    include_hashtags := true
    num_hashtags := 3
    is_series := true
    series_id := some "s1" }

/-- A stored post of u1 in series s1 with `series_order = 1`. -/
def seriesPoint1 : Point :=
  { id := "sp1", vector := []
    payload :=
      { user_id := "u1"
        topic := "part one"
        post_content := "content one"
        document := "doc one"
        tone := "professional"
        audience := "general"
        length := "medium"
        series_id := some "s1"
        series_order := some 1
        created_at := "2026-01-01" } }

/-- C2 (code bug): generator.py line 49 calls
`self.chain.extract_facts(series_posts)` with one positional argument while
`LinkedInChain.extract_facts` requires `(post_content, topic)`, so every
continuation request raises `TypeError` before generating or storing
anything — sequential continuations never extend a series past its first
post; here continuing a series with one existing post fails and leaves the
store unchanged. -/
theorem C2_continuation_raises_type_error :
    get_series_posts [seriesPoint1] "u1" "s1" =
      [{ id := "sp1", document := "doc one"
         metadata := buildMeta seriesPoint1.payload }] ∧
    generate_post env0 [seriesPoint1] reqC2 =
      .error (.typeError
        "extract_facts() missing 1 required positional argument: \x27topic\x27",
        [seriesPoint1]) :=
  ⟨rfl, rfl⟩

/-- A continuation request naming a series id with zero stored posts. -/
def reqC7 : PostRequest := { reqC2 with series_id := some "missing-series" }

/-- C7 (code bug): a continuation naming a `series_id` with zero existing
posts reaches the same mis-arity `extract_facts` call (generator.py line
49) with the empty prior-post list and raises `TypeError` instead of
proceeding with `series_order = 1`. -/
theorem C7_empty_series_continuation_raises :
    get_series_posts ([] : List Point) "u1" "missing-series" = [] ∧
    generate_post env0 [] reqC7 =
      .error (.typeError
        "extract_facts() missing 1 required positional argument: \x27topic\x27",
        []) :=
  ⟨rfl, rfl⟩

/-- C8 (code bug): `extract_facts` is not a batched call — its signature is
per-post `(post_content, topic)`.  The single-argument batched-style call
that the generator makes raises `TypeError`; only a correctly-arityed
two-argument call runs the body, and a parse failure there yields ONE empty
fact bundle, not one per post. -/
theorem C8_fact_extraction_not_batched :
    extract_facts_apply env0 [PyVal.postList
      [{ id := "sp1", document := "doc one"
         metadata := buildMeta seriesPoint1.payload }]] =
      .error (.typeError
        "extract_facts() missing 1 required positional argument: \x27topic\x27") ∧
    extract_facts_apply env0 [PyVal.str "some post", PyVal.str "some topic"] =
      .ok emptyFactBundle :=
  ⟨rfl, rfl⟩

/-! ## Claim C5 -/

/-- De-duplication with the `(tone, length)` PAIR itself as key, keeping
first occurrences in order — the behaviour the spec ascribes to the
patterns-to-avoid output, to be compared with `formatPatternsAux`, whose
key is the joined string `tone ++ "-" ++ length`. -/
def dedupByPairAux : List AvoidPattern → List (String × String) → List AvoidPattern
  | [], _ => []
  | p :: ps, seen =>
    if (p.tone, p.length) ∈ seen then dedupByPairAux ps seen
    else p :: dedupByPairAux ps ((p.tone, p.length) :: seen)

def dedupByPair (l : List AvoidPattern) : List AvoidPattern := dedupByPairAux l []

def hyphenFree (s : String) : Prop := '-' ∉ s.data

def pairKeyStr (q : String × String) : String := q.1 ++ "-" ++ q.2

theorem append_dash_inj : ∀ (a c b d : List Char),
    '-' ∉ a → '-' ∉ c → a ++ '-' :: b = c ++ '-' :: d → a = c ∧ b = d := by
  intro a
  induction a with
  | nil =>
    intro c b d _ hc h
    cases c with
    | nil => simpa using h
    | cons y ys =>
      simp only [List.nil_append, List.cons_append, List.cons.injEq] at h
      have hy : y = '-' := h.1.symm
      subst hy
      exact absurd (List.mem_cons_self _ _) hc
  | cons x xs ih =>
    intro c b d ha hc h
    cases c with
    | nil =>
      simp only [List.cons_append, List.nil_append, List.cons.injEq] at h
      have hx : x = '-' := h.1
      subst hx
      exact absurd (List.mem_cons_self _ _) ha
    | cons y ys =>
      simp only [List.cons_append, List.cons.injEq] at h
      obtain ⟨hxy, hrest⟩ := h
      have ha' : '-' ∉ xs := fun hm => ha (List.mem_cons_of_mem _ hm)
      have hc' : '-' ∉ ys := fun hm => hc (List.mem_cons_of_mem _ hm)
      obtain ⟨h1, h2⟩ := ih ys b d ha' hc' hrest
      exact ⟨by rw [hxy, h1], h2⟩

/-- On hyphen-free components, the joined-string key used by the source
determines the pair. -/
theorem pairKeyStr_inj {q : String × String} {p : AvoidPattern}
    (hq : hyphenFree q.1) (hp : hyphenFree p.tone)
    (h : pairKeyStr q = patternKey p) : q = (p.tone, p.length) := by
  obtain ⟨q1, q2⟩ := q
  have hd := congrArg String.data h
  simp only [pairKeyStr, patternKey, String.data_append] at hd
  rw [List.append_assoc, List.append_assoc, List.singleton_append,
    List.singleton_append] at hd
  obtain ⟨e1, e2⟩ := append_dash_inj _ _ _ _ hq hp hd
  simp only [Prod.mk.injEq]
  exact ⟨String.ext e1, String.ext e2⟩

/-- The accumulation loop of `_format_patterns_to_avoid` agrees with
pair-keyed first-occurrence de-duplication whenever tones and lengths are
hyphen-free (which all enum values are). -/
theorem formatPatternsAux_eq_dedup :
    ∀ (ps : List AvoidPattern) (seen : List (String × String)),
    (∀ p ∈ ps, hyphenFree p.tone ∧ hyphenFree p.length) →
    (∀ q ∈ seen, hyphenFree q.1 ∧ hyphenFree q.2) →
    formatPatternsAux ps (seen.map pairKeyStr) =
      (dedupByPairAux ps seen).map patternLine := by
  intro ps
  induction ps with
  | nil => intro seen _ _; rfl
  | cons p ps ih =>
    intro seen hps hseen
    have hp := hps p (List.mem_cons_self _ _)
    have hiff : (patternKey p ∈ seen.map pairKeyStr) ↔ ((p.tone, p.length) ∈ seen) := by
      constructor
      · intro hmem
        rcases List.mem_map.1 hmem with ⟨q, hq, hkey⟩
        have hqf := hseen q hq
        have hq' : q = (p.tone, p.length) := pairKeyStr_inj hqf.1 hp.1 hkey
        rwa [hq'] at hq
      · intro hmem
        exact List.mem_map.2 ⟨(p.tone, p.length), hmem, rfl⟩
    unfold formatPatternsAux dedupByPairAux
    by_cases hin : (p.tone, p.length) ∈ seen
    · rw [if_pos (hiff.2 hin), if_pos hin]
      exact ih seen (fun r hr => hps r (List.mem_cons_of_mem _ hr)) hseen
    · rw [if_neg (fun hh => hin (hiff.1 hh)), if_neg hin]
      have hseen' : ∀ q ∈ (p.tone, p.length) :: seen,
          hyphenFree q.1 ∧ hyphenFree q.2 := by
        intro q hq
        rcases List.mem_cons.1 hq with rfl | hq'
        · exact ⟨hp.1, hp.2⟩
        · exact hseen q hq'
      have hrec := ih ((p.tone, p.length) :: seen)
        (fun r hr => hps r (List.mem_cons_of_mem _ hr)) hseen'
      rw [List.map_cons]
      exact congrArg (List.cons (patternLine p)) hrec

theorem collectAvoid_snd_mem (T : Rat) (l : List SearchResult) :
    ∀ e ∈ (collectAvoid T l).2, ∃ r ∈ l, e = mkAvoidPattern r := by
  induction l with
  | nil => intro e he; simp [collectAvoid] at he
  | cons p ps ih =>
    intro e he
    by_cases h : T < p.similarity_score
    · simp only [collectAvoid, if_pos h, List.mem_cons] at he
      rcases he with rfl | he'
      · exact ⟨p, List.mem_cons_self _ _, rfl⟩
      · obtain ⟨r, hr, hre⟩ := ih e he'
        exact ⟨r, List.mem_cons_of_mem _ hr, hre⟩
    · simp only [collectAvoid, if_neg h] at he
      obtain ⟨r, hr, hre⟩ := ih e he
      exact ⟨r, List.mem_cons_of_mem _ hr, hre⟩

theorem mem_patterns_to_avoid {T : Rat} {l : List SearchResult} {e : AvoidPattern}
    (he : e ∈ (build_different_context T l).patterns_to_avoid) :
    ∃ r ∈ l, e = mkAvoidPattern r := by
  cases l with
  | nil => simp [build_different_context] at he
  | cons p ps => exact collectAvoid_snd_mem T (p :: ps) e he

theorem toneValues_hyphenFree {s : String} (h : s ∈ toneValues) : hyphenFree s := by
  simp only [toneValues, List.mem_cons, List.not_mem_nil, or_false] at h
  rcases h with rfl | rfl | rfl | rfl | rfl | rfl <;> (unfold hyphenFree; decide)

theorem lengthValues_hyphenFree {s : String} (h : s ∈ lengthValues) : hyphenFree s := by
  simp only [lengthValues, List.mem_cons, List.not_mem_nil, or_false] at h
  rcases h with rfl | rfl | rfl <;> (unfold hyphenFree; decide)

/-- C5: for retrieval results whose tone and length are drawn from the
request enums (the only values the service ever stores), the emitted
patterns-to-avoid lines are exactly the `(tone, length)` pairs de-duplicated
with the pair itself as key, first occurrence kept, order preserved; the
formatted output is their newline join. -/
theorem C5_patterns_deduped_by_pair (T : Rat) (l : List SearchResult)
    (henum : ∀ r ∈ l, r.metadata.tone ∈ toneValues ∧ r.metadata.length ∈ lengthValues) :
    formatPatternsAux (build_different_context T l).patterns_to_avoid [] =
      (dedupByPair (build_different_context T l).patterns_to_avoid).map patternLine ∧
    ((build_different_context T l).patterns_to_avoid ≠ [] →
      format_patterns_to_avoid (build_different_context T l).patterns_to_avoid =
        String.intercalate "\n"
          ((dedupByPair (build_different_context T l).patterns_to_avoid).map patternLine)) := by
  have hpat : ∀ p ∈ (build_different_context T l).patterns_to_avoid,
      hyphenFree p.tone ∧ hyphenFree p.length := by
    intro p hp
    obtain ⟨r, hr, rfl⟩ := mem_patterns_to_avoid hp
    have h := henum r hr
    exact ⟨toneValues_hyphenFree h.1, lengthValues_hyphenFree h.2⟩
  have hmain0 := formatPatternsAux_eq_dedup
    ((build_different_context T l).patterns_to_avoid) [] hpat (by intro q hq; cases hq)
  have hmain : formatPatternsAux (build_different_context T l).patterns_to_avoid [] =
      (dedupByPair (build_different_context T l).patterns_to_avoid).map patternLine := by
    simpa [dedupByPair] using hmain0
  refine ⟨hmain, ?_⟩
  intro hne
  have hfmt : format_patterns_to_avoid (build_different_context T l).patterns_to_avoid =
      String.intercalate "\n"
        (formatPatternsAux (build_different_context T l).patterns_to_avoid []) := by
    cases hps : (build_different_context T l).patterns_to_avoid with
    | nil => exact absurd hps hne
    | cons a as => rfl
  rw [hfmt, hmain]

def resultP1 : SearchResult :=
  { id := "r1", document := "d1"
    metadata :=
      { user_id := "u1", topic := "t1", post_content := "c1", tone := "professional"
        audience := "general", length := "medium", series_id := none
        series_order := none, created_at := "x1" }
    similarity_score := mkRat 9 10 }

/-- Same (tone, length) pattern as `resultP1`, different topic. -/
def resultP2 : SearchResult :=
  { id := "r2", document := "d2"
    metadata :=
      { user_id := "u1", topic := "t2", post_content := "c2", tone := "professional"
        audience := "general", length := "medium", series_id := none
        series_order := none, created_at := "x2" }
    similarity_score := mkRat 4 5 }

def resultP3 : SearchResult :=
  { id := "r3", document := "d3"
    metadata :=
      { user_id := "u1", topic := "t3", post_content := "c3", tone := "casual"
        audience := "engineers", length := "short", series_id := none
        series_order := none, created_at := "x3" }
    similarity_score := mkRat 9 10 }

def rsC5 : List SearchResult := [resultP1, resultP2, resultP3]

/-- Witness for C5: three over-threshold results, two sharing the
(professional, medium) pattern, collapse to two pattern lines. -/
theorem C5_patterns_deduped_by_pair_witness :
    formatPatternsAux (build_different_context (mkRat 3 4) rsC5).patterns_to_avoid [] =
      (dedupByPair (build_different_context (mkRat 3 4) rsC5).patterns_to_avoid).map
        patternLine :=
  (C5_patterns_deduped_by_pair (mkRat 3 4) rsC5 (by decide)).1

/-! ## Claims C9 and C10 — pipeline-level lemmas -/

theorem add_post_spec (env : Env) (store : List Point)
    (u t c tn au ln : String) (sid : Option String) (sord : Option Nat) :
    (∃ e, add_post env store u t c tn au ln sid sord = .error e) ∨
    (∃ p : Point, add_post env store u t c tn au ln sid sord =
      .ok (store ++ [p], env.uuid_post) ∧ p.payload.post_content = c) := by
  unfold add_post
  cases env.embed ("Topic: " ++ t ++ "\n\nPost: " ++ c) with
  | error e => exact Or.inl ⟨e, rfl⟩
  | ok vec => exact Or.inr ⟨_, rfl, rfl⟩

theorem finishRequest_error_store {env : Env} {store : List Point} {req : PostRequest}
    {gp : String} {sid : Option String} {sord : Option Nat} {te : Bool}
    {stl : List TopicEntry} {msg : String} {e : PyErr} {store' : List Point}
    (h : finishRequest env store req gp sid sord te stl msg = .error (e, store')) :
    store' = store := by
  simp only [finishRequest] at h
  rcases tryE_eq_error h with ⟨_, hstore⟩ | ⟨a, _, hk⟩
  · exact hstore
  · simp at hk

theorem finishRequest_ok {env : Env} {store : List Point} {req : PostRequest}
    {gp : String} {sid : Option String} {sord : Option Nat} {te : Bool}
    {stl : List TopicEntry} {msg : String} {resp : PostResponse} {store' : List Point}
    (h : finishRequest env store req gp sid sord te stl msg = .ok (resp, store')) :
    resp.topic_exists = te ∧
    resp.similar_topics = stl.map (fun t =>
      ({ topic := t.topic, similarity_score := t.similarity_score
         created_at := some t.created_at } : TopicInfo)) ∧
    resp.post = gp ∧
    ∃ p : Point, store' = store ++ [p] ∧ p.payload.post_content = gp := by
  simp only [finishRequest] at h
  rcases tryE_eq_ok h with ⟨sp, hx, hk⟩
  injection hk with h1
  injection h1 with hresp hstore
  rcases add_post_spec env store req.user_id req.topic gp req.tone.value
      req.audience.value req.length.value sid sord with ⟨e, hap⟩ | ⟨p, hap, hc⟩
  · rw [hap] at hx
    simp at hx
  · rw [hap] at hx
    injection hx with h2
    subst hresp
    refine ⟨rfl, rfl, rfl, p, ?_, hc⟩
    rw [← hstore, ← h2]

/-- The continue-series branch always raises the mis-arity `TypeError`,
for every environment, store and request, leaving the store unchanged. -/
theorem continue_series_eq (env : Env) (store : List Point) (req : PostRequest)
    (sid : String) :
    continue_series env store req sid =
      .error (.typeError
        "extract_facts() missing 1 required positional argument: \x27topic\x27",
        store) := rfl

theorem start_new_series_spec (env : Env) (store : List Point) (req : PostRequest) :
    (∀ e store', start_new_series env store req = .error (e, store') → store' = store) ∧
    (∀ resp store', start_new_series env store req = .ok (resp, store') →
      resp.topic_exists = false ∧ resp.similar_topics = [] ∧
      ∃ p : Point, store' = store ++ [p] ∧ p.payload.post_content = resp.post) := by
  constructor
  · intro e store' h
    simp only [start_new_series] at h
    rcases tryE_eq_error h with ⟨_, hstore⟩ | ⟨sp, _, hk1⟩
    · exact hstore
    · rcases tryE_eq_error hk1 with ⟨_, hstore⟩ | ⟨gp, _, hk2⟩
      · exact hstore
      · exact finishRequest_error_store hk2
  · intro resp store' h
    simp only [start_new_series] at h
    rcases tryE_eq_ok h with ⟨sp, _, hk1⟩
    rcases tryE_eq_ok hk1 with ⟨gp, _, hk2⟩
    obtain ⟨hte, hst, hpost, hp⟩ := finishRequest_ok hk2
    refine ⟨hte, by simpa using hst, ?_⟩
    rw [← hpost] at hp
    exact hp

theorem standalone_post_spec (env : Env) (store : List Point) (req : PostRequest) :
    (∀ e store', standalone_post env store req = .error (e, store') → store' = store) ∧
    (∀ resp store', standalone_post env store req = .ok (resp, store') →
      ∃ p : Point, store' = store ++ [p] ∧ p.payload.post_content = resp.post) := by
  constructor
  · intro e store' h
    simp only [standalone_post] at h
    rcases tryE_eq_error h with ⟨_, hstore⟩ | ⟨sp, _, hk1⟩
    · exact hstore
    · rcases tryE_eq_error hk1 with ⟨_, hstore⟩ | ⟨msg, _, hk2⟩
      · exact hstore
      · cases hsm : req.style_mode with
        | similar =>
          rw [hsm] at hk2
          rcases tryE_eq_error hk2 with ⟨_, hstore⟩ | ⟨gp, _, hk3⟩
          · exact hstore
          · exact finishRequest_error_store hk3
        | different =>
          rw [hsm] at hk2
          rcases tryE_eq_error hk2 with ⟨_, hstore⟩ | ⟨gp, _, hk3⟩
          · exact hstore
          · exact finishRequest_error_store hk3
  · intro resp store' h
    simp only [standalone_post] at h
    rcases tryE_eq_ok h with ⟨sp, _, hk1⟩
    rcases tryE_eq_ok hk1 with ⟨msg, _, hk2⟩
    cases hsm : req.style_mode with
    | similar =>
      rw [hsm] at hk2
      rcases tryE_eq_ok hk2 with ⟨gp, _, hk3⟩
      obtain ⟨_, _, hpost, hp⟩ := finishRequest_ok hk3
      rw [← hpost] at hp
      exact hp
    | different =>
      rw [hsm] at hk2
      rcases tryE_eq_ok hk2 with ⟨gp, _, hk3⟩
      obtain ⟨_, _, hpost, hp⟩ := finishRequest_ok hk3
      rw [← hpost] at hp
      exact hp

/-- C9 (amended): failures of embedding, retrieval or generation leave the
store exactly as it was (no partial write), and a completed request appends
exactly one post — but `validate_all`'s verdict is ignored, so the append
happens regardless of validation (see the counterexample). -/
theorem C9_no_partial_write_validation_ignored (env : Env) (store : List Point)
    (req : PostRequest) :
    (∀ e store', generate_post env store req = .error (e, store') → store' = store) ∧
    (∀ resp store', generate_post env store req = .ok (resp, store') →
      ∃ p : Point, store' = store ++ [p] ∧ p.payload.post_content = resp.post) := by
  constructor
  · intro e store' h
    unfold generate_post at h
    by_cases hser : req.is_series = true
    · rw [if_pos hser] at h
      by_cases hT : pyTruthyOptStr req.series_id = true
      · rw [if_pos hT, continue_series_eq] at h
        injection h with h1
        injection h1 with h2 h3
        exact h3.symm
      · rw [if_neg hT] at h
        exact (start_new_series_spec env store req).1 e store' h
    · rw [if_neg hser] at h
      exact (standalone_post_spec env store req).1 e store' h
  · intro resp store' h
    unfold generate_post at h
    by_cases hser : req.is_series = true
    · rw [if_pos hser] at h
      by_cases hT : pyTruthyOptStr req.series_id = true
      · rw [if_pos hT, continue_series_eq] at h
        simp at h
      · rw [if_neg hT] at h
        obtain ⟨_, _, hp⟩ := (start_new_series_spec env store req).2 resp store' h
        exact hp
    · rw [if_neg hser] at h
      exact (standalone_post_spec env store req).2 resp store' h

/-- A standalone generation request. -/
def reqC9 : PostRequest :=
  { user_id := "u1"
    topic := "hello topic"
    tone := .professional
    audience := .general
    length := .medium
    style_mode := .similar
    include_emoji := true
    include_hashtags := true
    num_hashtags := 3
    is_series := false
    series_id := none }

/-- Environment whose generation backend returns the two-character post
"hi", which fails every validator check that matters (length 2 < 100). -/
def envC9 : Env := { env0 with llm_similar := fun _ => .ok "hi" }

def pointC9 : Point :=
  { id := "post-uuid-1", vector := []
    payload :=
      { user_id := "u1"
        topic := "hello topic"
        post_content := "hi"
        document := "Topic: hello topic\n\nPost: hi"
        tone := "professional"
        audience := "general"
        length := "medium"
        series_id := none
        series_order := none
        created_at := "2026-01-01T00:00:00" } }

def respC9 : PostResponse :=
  { post := "hi"
    topic_exists := false
    similar_topics := []
    message := "This is a fresh topic for you!"
    metadata :=
      { tone := "professional"
        audience := "general"
        length := "medium"
        style_mode := "similar"
        model_used := "gpt-4o-mini"
        series_id := none
        series_order := none } }

/-- Counterexample for C9 as stated: the generated post "hi" FAILS
`validate_all` (`is_valid = false`), yet the request completes and the post
is stored — `generate_post` never consults the validation result. -/
theorem C9_validation_failure_still_stored :
    (validate_all 100 3000 "hi").is_valid = false ∧
    generate_post envC9 [] reqC9 = .ok (respC9, [pointC9]) :=
  ⟨rfl, rfl⟩

/-- Environment whose embedding provider fails. -/
def envFail : Env :=
  { env0 with embed := fun _ => .error (.externalFailure "embedding down") }

/-- Witness for C9 (amended): an embedding failure leaves the one-point
store untouched, and the successful "hi" run appends exactly one point
whose stored content is the response post. -/
theorem C9_no_partial_write_validation_ignored_witness :
    (([point1] : List Point) = [point1]) ∧
    (∃ p : Point, ([pointC9] : List Point) = [] ++ [p] ∧
      p.payload.post_content = respC9.post) :=
  ⟨(C9_no_partial_write_validation_ignored envFail [point1] reqC9).1
      (.externalFailure "embedding down") [point1] rfl,
   (C9_no_partial_write_validation_ignored envC9 [] reqC9).2 respC9 [pointC9] rfl⟩

/-- C10: in series mode (starting or continuing), the novelty
classification never runs: any successful response carries
`topic_exists = false` and an empty `similar_topics` list. -/
theorem C10_series_mode_skips_novelty (env : Env) (store : List Point)
    (req : PostRequest) (resp : PostResponse) (store' : List Point)
    (hs : req.is_series = true)
    (h : generate_post env store req = .ok (resp, store')) :
    resp.topic_exists = false ∧ resp.similar_topics = [] := by
  unfold generate_post at h
  rw [hs, if_pos rfl] at h
  by_cases hT : pyTruthyOptStr req.series_id = true
  · rw [if_pos hT, continue_series_eq] at h
    simp at h
  · rw [if_neg hT] at h
    obtain ⟨hte, hst, _⟩ := (start_new_series_spec env store req).2 resp store' h
    exact ⟨hte, hst⟩

/-- A start-new-series request. -/
def reqC10 : PostRequest := { reqC9 with is_series := true, series_id := none }

def pointC10 : Point :=
  { id := "post-uuid-1", vector := []
    payload :=
      { user_id := "u1"
        topic := "hello topic"
        post_content := "hi"
        document := "Topic: hello topic\n\nPost: hi"
        tone := "professional"
        audience := "general"
        length := "medium"
        series_id := some "series-uuid-1"
        series_order := some 1
        created_at := "2026-01-01T00:00:00" } }

def respC10 : PostResponse :=
  { post := "hi"
    topic_exists := false
    similar_topics := []
    message := "Started new series (Post #1). Series ID: series-uuid-1"
    metadata :=
      { tone := "professional"
        audience := "general"
        length := "medium"
        style_mode := "similar"
        model_used := "gpt-4o-mini"
        series_id := some "series-uuid-1"
        series_order := some 1 } }

/-- Witness for C10: a concrete series-start run succeeds and its response
reports no topic match. -/
theorem C10_series_mode_skips_novelty_witness :
    respC10.topic_exists = false ∧ respC10.similar_topics = [] :=
  C10_series_mode_skips_novelty envC9 [] reqC10 respC10 [pointC10] rfl rfl

end LIPG
